import Mathlib

/-!
Verification of the WeChat publishing client (`src/wx/wechat.py`).

The module is a thin HTTP API client: an access-token cache backed by a
JSON file, media uploads, draft creation and publishing.  We embed the
functions shallowly: machine time is an `Int` parameter (`time.time()`),
the cache file is an explicit `FileState`, and each remote endpoint's
reply is passed in as the parsed JSON object it would return.  Each
embedded function returns its result together with the new cache-file
state and the number of network calls it performed.
-/

set_option autoImplicit false

namespace Wx

/-- A JSON value, as produced by Python's `json.loads`.  Numbers are
modelled as integers (the values the client handles — timestamps and
`expires_in` — are integral seconds). -/
inductive Json where
  | null
  | bool (b : Bool)
  | num (n : Int)
  | str (s : String)
  | arr (elems : List Json)
  | obj (fields : List (String × Json))

/-- Field lookup in a JSON object, i.e. Python dict access on the parsed
object (`d[k]` / `d.get(k)`). -/
def Json.lookup : List (String × Json) → String → Option Json
  | [], _ => none
  | (k, v) :: rest, key => if k = key then some v else Json.lookup rest key

/-- The numeric reading Python uses when a JSON value meets `<` or
arithmetic against a number: ints stand for themselves, booleans for 0/1,
anything else raises `TypeError` (`none`). -/
def Json.asNum : Json → Option Int
  | .num n => some n
  | .bool b => some (if b then 1 else 0)
  | _ => none

/-- Python `x == 0` / `x != 0` semantics for a JSON value against an
integer: numbers and booleans compare numerically, other types are never
equal to an integer. -/
def Json.pyEqInt : Json → Int → Bool
  | .num n, m => n == m
  | .bool b, m => (if b then (1 : Int) else 0) == m
  | _, _ => false

/-- Truthiness of an optional environment string, as tested by
`if not APP_ID or not APP_SECRET` — `os.getenv` yields `None` when the
variable is unset, and the empty string is also falsy. -/
def pyTruthy : Option String → Bool
  | none => false
  | some s => !(s == "")

/-- The exceptions the client can raise. -/
inductive PyError where
  | valueError (msg : String)
  | jsonDecodeError
  | attributeError
  | typeError
  | keyError (k : String)
  | runtimeError (context : String) (payload : Json)
  | fileNotFoundError (msg : String)

/-- State of the token-cache file `.token_cache.json`: missing, present
but not parseable as JSON, or present with parsed content `j`. -/
inductive FileState where
  | absent
  | invalidJson
  | json (j : Json)

/-- The module-level configuration and the cache file: `WECHAT_APP_ID`,
`WECHAT_APP_SECRET` and `TOKEN_CACHE`. -/
structure TokenState where
  appId : Option String
  appSecret : Option String
  cacheFile : FileState

/-- Outcome of one `get_access_token` call: the returned value (the token
JSON value on success) or the exception, the cache file afterwards, and
how many token-endpoint network calls were made. -/
structure TokenStep where
  result : Except PyError Json
  cacheFile : FileState
  networkCalls : Nat

/-- Error message of `_check_credentials` (wechat.py line 31). -/
def CRED_ERR_MSG : String := "WECHAT_APP_ID 和 WECHAT_APP_SECRET 未配置，请检查 wx/.env"

/-- Lines 39–41: given the parsed cache JSON `j`, evaluate
`cache.get("expires_at", 0)`, compare with `time.time()`, and on a hit
return `cache["access_token"]`.  `.ok (some v)` is a cache hit returning
`v`, `.ok none` falls through to the refresh, `.error` is a raised
exception (non-dict cache, non-numeric `expires_at`, missing
`access_token` key on a hit). -/
def readCacheHit (now : Int) : Json → Except PyError (Option Json)
  | .obj fields =>
    match ((Json.lookup fields "expires_at").getD (.num 0)).asNum with
    | some e =>
      if now < e then
        match Json.lookup fields "access_token" with
        | some tok => .ok (some tok)
        | none => .error (.keyError "access_token")
      else .ok none
    | none => .error .typeError
  | _ => .error .attributeError

/-- Lines 43–58: the refresh path.  `tokenData` is the parsed JSON object
the token endpoint returns.  Checks `"access_token" not in data`, computes
`expires_at = time.time() + data.get("expires_in", 7200) - 300`, writes
the new cache record, and returns the token. -/
def fetchAndCache (now : Int) (tokenData : List (String × Json)) (s : TokenState) : TokenStep :=
  match Json.lookup tokenData "access_token" with
  | none =>
    { result := .error (.runtimeError "获取 access_token 失败" (.obj tokenData)),
      cacheFile := s.cacheFile, networkCalls := 1 }
  | some tok =>
    match ((Json.lookup tokenData "expires_in").getD (.num 7200)).asNum with
    | none => { result := .error .typeError, cacheFile := s.cacheFile, networkCalls := 1 }
    | some expires_in =>
      let newCache : Json :=
        .obj [("access_token", tok), ("expires_at", .num (now + expires_in - 300))]
      { result := .ok tok, cacheFile := .json newCache, networkCalls := 1 }

/-- `get_access_token` (wechat.py lines 34–58).  `now` is `time.time()`,
`tokenData` the reply the token endpoint would give if called, `s` the
configuration and cache file. -/
def get_access_token (force_refresh : Bool) (now : Int)
    (tokenData : List (String × Json)) (s : TokenState) : TokenStep :=
  if !(pyTruthy s.appId && pyTruthy s.appSecret) then
    { result := .error (.valueError CRED_ERR_MSG), cacheFile := s.cacheFile, networkCalls := 0 }
  else if force_refresh then
    fetchAndCache now tokenData s
  else
    match s.cacheFile with
    | .absent => fetchAndCache now tokenData s
    | .invalidJson =>
      { result := .error .jsonDecodeError, cacheFile := .invalidJson, networkCalls := 0 }
    | .json j =>
      match readCacheHit now j with
      | .error e => { result := .error e, cacheFile := .json j, networkCalls := 0 }
      | .ok (some tok) => { result := .ok tok, cacheFile := .json j, networkCalls := 0 }
      | .ok none => fetchAndCache now tokenData s

/-- The cache record written on refresh, `{"access_token": ..., "expires_at": ...}`. -/
structure CachedToken where
  access_token : String
  expires_at : Int

/-- `json.dumps` of the cache record (line 57), at the JSON-value level. -/
def dumpCachedToken (ct : CachedToken) : Json :=
  .obj [("access_token", .str ct.access_token), ("expires_at", .num ct.expires_at)]

/-- The fields the cache-hit read path (lines 39–41) extracts from the
parsed cache file: `access_token` (a string) and `expires_at` (a number);
`none` when the file does not hold such a record. -/
def loadCachedToken : Json → Option CachedToken
  | .obj fields =>
    match Json.lookup fields "access_token", Json.lookup fields "expires_at" with
    | some (.str t), some (.num e) => some ⟨t, e⟩
    | _, _ => none
  | _ => none

/-- A well-formed cache file holding record `(t, e)`. -/
def recFile (t : String) (e : Int) : FileState := .json (dumpCachedToken ⟨t, e⟩)

mutual

/-- Python `repr` of a JSON value (the rendering an f-string embeds for a
dict), up to string escaping. -/
def pyRepr : Json → String
  | .null => "None"
  | .bool b => if b then "True" else "False"
  | .num n => toString n
  | .str s => "\x27" ++ s ++ "\x27"
  | .arr elems => "[" ++ pyReprElems elems ++ "]"
  | .obj fields => "\x7b" ++ pyReprFields fields ++ "\x7d"

/-- Comma-separated `repr` of list elements. -/
def pyReprElems : List Json → String
  | [] => ""
  | [x] => pyRepr x
  | x :: rest => pyRepr x ++ ", " ++ pyReprElems rest

/-- Comma-separated `repr` of dict entries. -/
def pyReprFields : List (String × Json) → String
  | [] => ""
  | [(k, v)] => "\x27" ++ k ++ "\x27: " ++ pyRepr v
  | (k, v) :: rest => "\x27" ++ k ++ "\x27: " ++ pyRepr v ++ ", " ++ pyReprFields rest

end

/-- Python `str()` applied to a JSON value (`return str(publish_id)`):
identity on strings, `repr` otherwise. -/
def pyStr : Json → String
  | .str s => s
  | j => pyRepr j

/-- Outcome of one upload call: result or exception, the cache file
afterwards, token-endpoint calls made (inside `get_access_token`), and
upload-endpoint calls made. -/
structure UploadStep where
  result : Except PyError Json
  cacheFile : FileState
  tokenCalls : Nat
  uploadCalls : Nat

/-- `upload_image` (wechat.py lines 61–90): fetch a token, check the local
file exists, POST the file, require `media_id` in the reply.  `fileExists`
models `Path(image_path).exists()`; `uploadData` is the parsed JSON reply
of the upload endpoint. -/
def upload_image (image_path : String) (permanent : Bool) (fileExists : Bool) (now : Int)
    (tokenData uploadData : List (String × Json)) (s : TokenState) : UploadStep :=
  let t := get_access_token false now tokenData s
  match t.result with
  | .error e =>
    { result := .error e, cacheFile := t.cacheFile, tokenCalls := t.networkCalls,
      uploadCalls := 0 }
  | .ok _ =>
    if !fileExists then
      { result := .error (.fileNotFoundError ("图片不存在: " ++ image_path)),
        cacheFile := t.cacheFile, tokenCalls := t.networkCalls, uploadCalls := 0 }
    else
      -- `permanent` only selects the endpoint (`material/add_material` vs
      -- `media/upload`); the reply handling is identical.
      let _url := if permanent then "material/add_material" else "media/upload"
      match Json.lookup uploadData "media_id" with
      | none =>
        { result := .error (.runtimeError "上传图片失败" (.obj uploadData)),
          cacheFile := t.cacheFile, tokenCalls := t.networkCalls, uploadCalls := 1 }
      | some m =>
        { result := .ok m, cacheFile := t.cacheFile, tokenCalls := t.networkCalls,
          uploadCalls := 1 }

/-- `upload_thumb_image` (wechat.py lines 93–114): like `upload_image` with
the permanent-material endpoint, type `thumb`. -/
def upload_thumb_image (image_path : String) (fileExists : Bool) (now : Int)
    (tokenData uploadData : List (String × Json)) (s : TokenState) : UploadStep :=
  let t := get_access_token false now tokenData s
  match t.result with
  | .error e =>
    { result := .error e, cacheFile := t.cacheFile, tokenCalls := t.networkCalls,
      uploadCalls := 0 }
  | .ok _ =>
    if !fileExists then
      { result := .error (.fileNotFoundError ("图片不存在: " ++ image_path)),
        cacheFile := t.cacheFile, tokenCalls := t.networkCalls, uploadCalls := 0 }
    else
      match Json.lookup uploadData "media_id" with
      | none =>
        { result := .error (.runtimeError "上传封面图失败" (.obj uploadData)),
          cacheFile := t.cacheFile, tokenCalls := t.networkCalls, uploadCalls := 1 }
      | some m =>
        { result := .ok m, cacheFile := t.cacheFile, tokenCalls := t.networkCalls,
          uploadCalls := 1 }

/-- `upload_content_image` (wechat.py lines 117–135): same shape, but the
expected reply field is `url`. -/
def upload_content_image (image_path : String) (fileExists : Bool) (now : Int)
    (tokenData uploadData : List (String × Json)) (s : TokenState) : UploadStep :=
  let t := get_access_token false now tokenData s
  match t.result with
  | .error e =>
    { result := .error e, cacheFile := t.cacheFile, tokenCalls := t.networkCalls,
      uploadCalls := 0 }
  | .ok _ =>
    if !fileExists then
      { result := .error (.fileNotFoundError ("图片不存在: " ++ image_path)),
        cacheFile := t.cacheFile, tokenCalls := t.networkCalls, uploadCalls := 0 }
    else
      match Json.lookup uploadData "url" with
      | none =>
        { result := .error (.runtimeError "上传正文图片失败" (.obj uploadData)),
          cacheFile := t.cacheFile, tokenCalls := t.networkCalls, uploadCalls := 1 }
      | some u =>
        { result := .ok u, cacheFile := t.cacheFile, tokenCalls := t.networkCalls,
          uploadCalls := 1 }

/-- Outcome of one `publish` call: the returned `publish_id` string or the
exception, the cache file afterwards, and token-endpoint calls made. -/
structure PublishStep where
  result : Except PyError String
  cacheFile : FileState
  tokenCalls : Nat

/-- `publish` (wechat.py lines 180–202): fetch a token, POST the draft
`media_id`, raise when `data.get("errcode", 0) != 0`, otherwise return
`str(data.get("publish_id", "unknown"))`.  `publishData` is the parsed
JSON reply of the publish endpoint. -/
def publish (media_id : String) (now : Int)
    (tokenData publishData : List (String × Json)) (s : TokenState) : PublishStep :=
  let _ := media_id
  let t := get_access_token false now tokenData s
  match t.result with
  | .error e =>
    { result := .error e, cacheFile := t.cacheFile, tokenCalls := t.networkCalls }
  | .ok _ =>
    if !(((Json.lookup publishData "errcode").getD (.num 0)).pyEqInt 0) then
      { result := .error (.runtimeError "发布失败" (.obj publishData)),
        cacheFile := t.cacheFile, tokenCalls := t.networkCalls }
    else
      let publish_id := (Json.lookup publishData "publish_id").getD (.str "unknown")
      { result := .ok (pyStr publish_id), cacheFile := t.cacheFile,
        tokenCalls := t.networkCalls }

/-- A cache-file state that is either absent or a well-formed record. -/
def optFile : Option (String × Int) → FileState
  | none => .absent
  | some (t, e) => recFile t e

/-! ### General lemmas about `get_access_token` -/

/-- Cache hit: with valid credentials, `force_refresh = False` and a cache
record whose `expires_at` lies strictly in the future, the call returns the
cached token, leaves the cache file unchanged and makes no network call. -/
theorem get_access_token_hit (appId appSecret : Option String) (t : String) (e now : Int)
    (tokenData : List (String × Json))
    (hA : pyTruthy appId = true) (hS : pyTruthy appSecret = true) (h : now < e) :
    get_access_token false now tokenData ⟨appId, appSecret, recFile t e⟩ =
      ⟨.ok (.str t), recFile t e, 0⟩ := by
  simp [get_access_token, hA, hS, recFile, dumpCachedToken, readCacheHit, Json.lookup,
    Json.asNum, h]

/-- Forced refresh: with valid credentials and a well-formed endpoint
reply, `force_refresh = True` calls the network once, overwrites the cache
and returns the fresh token, whatever the cache state was. -/
theorem get_access_token_force (appId appSecret : Option String) (cf : FileState)
    (now exp_in : Int) (tok : String)
    (hA : pyTruthy appId = true) (hS : pyTruthy appSecret = true) :
    get_access_token true now [("access_token", .str tok), ("expires_in", .num exp_in)]
      ⟨appId, appSecret, cf⟩ = ⟨.ok (.str tok), recFile tok (now + exp_in - 300), 1⟩ := by
  simp [get_access_token, hA, hS, fetchAndCache, Json.lookup, Json.asNum, recFile,
    dumpCachedToken]

/-- Cold start: no cache file present, so the call refreshes. -/
theorem get_access_token_absent (appId appSecret : Option String) (now exp_in : Int)
    (tok : String) (hA : pyTruthy appId = true) (hS : pyTruthy appSecret = true) :
    get_access_token false now [("access_token", .str tok), ("expires_in", .num exp_in)]
      ⟨appId, appSecret, .absent⟩ = ⟨.ok (.str tok), recFile tok (now + exp_in - 300), 1⟩ := by
  simp [get_access_token, hA, hS, fetchAndCache, Json.lookup, Json.asNum, recFile,
    dumpCachedToken]

/-- Stale cache: the stored `expires_at` is not in the future, so the call
refreshes and overwrites the record. -/
theorem get_access_token_stale (appId appSecret : Option String) (t tok : String)
    (e now exp_in : Int)
    (hA : pyTruthy appId = true) (hS : pyTruthy appSecret = true) (h : e ≤ now) :
    get_access_token false now [("access_token", .str tok), ("expires_in", .num exp_in)]
      ⟨appId, appSecret, recFile t e⟩ = ⟨.ok (.str tok), recFile tok (now + exp_in - 300), 1⟩ := by
  simp [get_access_token, hA, hS, recFile, dumpCachedToken, readCacheHit, Json.lookup,
    Json.asNum, fetchAndCache, show ¬ now < e from not_lt.2 h]

/-! ### The claims -/

/-- Claim C1: with valid credentials, `force_refresh = False` and a cached
record whose `expires_at` is strictly greater than the current time,
`get_access_token` returns the cached `access_token`, performs no network
call and leaves the cache file unchanged; consequently two successive
calls without `force_refresh` starting from an empty cache perform exactly
one network call (the second call hits the cache the first one wrote). -/
theorem claim1_cache_hit_single_fetch (appId appSecret : Option String)
    (hA : pyTruthy appId = true) (hS : pyTruthy appSecret = true) :
    (∀ (t : String) (e now : Int) (tokenData : List (String × Json)), now < e →
      get_access_token false now tokenData ⟨appId, appSecret, recFile t e⟩ =
        ⟨.ok (.str t), recFile t e, 0⟩)
    ∧
    (∀ (tok : String) (exp_in t1 t2 : Int), t2 < t1 + exp_in - 300 →
      (get_access_token false t1 [("access_token", .str tok), ("expires_in", .num exp_in)]
          ⟨appId, appSecret, .absent⟩).networkCalls
        + (get_access_token false t2 [("access_token", .str tok), ("expires_in", .num exp_in)]
            ⟨appId, appSecret,
              (get_access_token false t1 [("access_token", .str tok), ("expires_in", .num exp_in)]
                ⟨appId, appSecret, .absent⟩).cacheFile⟩).networkCalls = 1
      ∧ (get_access_token false t2 [("access_token", .str tok), ("expires_in", .num exp_in)]
          ⟨appId, appSecret,
            (get_access_token false t1 [("access_token", .str tok), ("expires_in", .num exp_in)]
              ⟨appId, appSecret, .absent⟩).cacheFile⟩).result = .ok (.str tok)) := by
  have hit := get_access_token_hit appId appSecret
  refine ⟨fun t e now td h => hit t e now td hA hS h, fun tok exp_in t1 t2 h => ?_⟩
  rw [get_access_token_absent appId appSecret t1 exp_in tok hA hS]
  rw [hit tok (t1 + exp_in - 300) t2 _ hA hS h]
  exact ⟨rfl, rfl⟩

/-- Witness for C1 at a concrete input: a warm cache is served without a
network call, and a cold start followed by a prompt second call costs one
network call in total. -/
theorem claim1_cache_hit_single_fetch_spot :
    (get_access_token false 5 [] ⟨some "A", some "B", recFile "tok" 10⟩ =
      ⟨.ok (.str "tok"), recFile "tok" 10, 0⟩)
    ∧ ((get_access_token false 0 [("access_token", .str "t"), ("expires_in", .num 7200)]
          ⟨some "A", some "B", .absent⟩).networkCalls
        + (get_access_token false 100 [("access_token", .str "t"), ("expires_in", .num 7200)]
            ⟨some "A", some "B",
              (get_access_token false 0 [("access_token", .str "t"), ("expires_in", .num 7200)]
                ⟨some "A", some "B", .absent⟩).cacheFile⟩).networkCalls = 1) :=
  ⟨(claim1_cache_hit_single_fetch (some "A") (some "B") (by decide) (by decide)).1
      "tok" 10 5 [] (by decide),
    ((claim1_cache_hit_single_fetch (some "A") (some "B") (by decide) (by decide)).2
      "t" 7200 0 100 (by decide)).1⟩

/-- Claim C2: over well-formed cache states (absent, or a record), the
token endpoint is called exactly when `force_refresh` is set, no record
exists, or the stored `expires_at` is not in the future; and whenever it
is called (with a well-formed reply) the cache file is overwritten
wholesale with the new record and the new token is returned. -/
theorem claim2_refresh_condition (appId appSecret : Option String) (force : Bool)
    (now exp_in : Int) (tok : String) (c : Option (String × Int))
    (hA : pyTruthy appId = true) (hS : pyTruthy appSecret = true) :
    ((get_access_token force now [("access_token", .str tok), ("expires_in", .num exp_in)]
        ⟨appId, appSecret, optFile c⟩).networkCalls = 1
      ↔ force = true ∨ c = none ∨ ∃ t e, c = some (t, e) ∧ e ≤ now)
    ∧ ((force = true ∨ c = none ∨ ∃ t e, c = some (t, e) ∧ e ≤ now) →
        get_access_token force now [("access_token", .str tok), ("expires_in", .num exp_in)]
          ⟨appId, appSecret, optFile c⟩ =
          ⟨.ok (.str tok), recFile tok (now + exp_in - 300), 1⟩) := by
  cases force with
  | true =>
    simp [get_access_token_force appId appSecret _ now exp_in tok hA hS]
  | false =>
    match c with
    | none =>
      simp [optFile, get_access_token_absent appId appSecret now exp_in tok hA hS]
    | some (t, e) =>
      by_cases h : now < e
      · rw [show optFile (some (t, e)) = recFile t e from rfl,
          get_access_token_hit appId appSecret t e now _ hA hS h]
        constructor
        · simp
          omega
        · rintro (hc | hc | ⟨t2, e2, he, hle⟩) <;> simp_all
          omega
      · have hle : e ≤ now := not_lt.1 h
        rw [show optFile (some (t, e)) = recFile t e from rfl,
          get_access_token_stale appId appSecret t tok e now exp_in hA hS hle]
        simp
        exact ⟨t, e, ⟨rfl, rfl⟩, hle⟩

/-- Witness for C2 at a concrete input: a stale record (expired at 3,
now 10) forces a refresh that overwrites the cache. -/
theorem claim2_refresh_condition_spot :
    get_access_token false 10 [("access_token", .str "new"), ("expires_in", .num 7200)]
      ⟨some "A", some "B", optFile (some ("old", 3))⟩ =
      ⟨.ok (.str "new"), recFile "new" (10 + 7200 - 300), 1⟩ :=
  (claim2_refresh_condition (some "A") (some "B") false 10 7200 "new" (some ("old", 3))
      (by decide) (by decide)).2 (Or.inr (Or.inr ⟨"old", 3, rfl, by decide⟩))

/-- Claim C3 (code bug): the spec requires a malformed cache file to be
treated as a cache miss, but `json.loads` is called without any handler,
so a cache file that is not valid JSON makes `get_access_token` raise
`json.JSONDecodeError` — no token fetch happens and no token is
returned. -/
theorem claim3_malformed_cache_raises :
    get_access_token false 0 [("access_token", .str "t")]
      ⟨some "A", some "B", .invalidJson⟩ =
      ⟨.error .jsonDecodeError, .invalidJson, 0⟩ := rfl

/-- Counterexample to C4 as stated: with valid credentials and an empty
cache, uploading a nonexistent file raises the file-not-found error only
AFTER `get_access_token` has already performed one token-endpoint network
call — the existence check sits after the token fetch, so the failure is
not "before any network call, including the token-endpoint call". -/
theorem claim4_token_call_precedes_file_check :
    upload_image "missing.png" false false 0 [("access_token", .str "tok")] []
      ⟨some "A", some "B", .absent⟩ =
      ⟨.error (.fileNotFoundError "图片不存在: missing.png"), recFile "tok" 6900, 1, 0⟩ := rfl

/-- Claim C4 (amended): whenever the token acquisition succeeds and the
local file is missing, each upload operation fails with the file-not-found
error before its upload-endpoint call (zero upload calls); the token
acquisition — which may itself call the token endpoint — happens first. -/
theorem claim4_missing_file_no_upload_call (image_path : String) (permanent : Bool)
    (now : Int) (tokenData uploadData : List (String × Json)) (s : TokenState) (j : Json)
    (htok : (get_access_token false now tokenData s).result = .ok j) :
    (upload_image image_path permanent false now tokenData uploadData s).result =
        .error (.fileNotFoundError ("图片不存在: " ++ image_path))
    ∧ (upload_image image_path permanent false now tokenData uploadData s).uploadCalls = 0
    ∧ (upload_thumb_image image_path false now tokenData uploadData s).result =
        .error (.fileNotFoundError ("图片不存在: " ++ image_path))
    ∧ (upload_thumb_image image_path false now tokenData uploadData s).uploadCalls = 0
    ∧ (upload_content_image image_path false now tokenData uploadData s).result =
        .error (.fileNotFoundError ("图片不存在: " ++ image_path))
    ∧ (upload_content_image image_path false now tokenData uploadData s).uploadCalls = 0 := by
  simp only [upload_image, upload_thumb_image, upload_content_image]
  rw [htok]
  simp

/-- Witness for the amended C4 at a concrete input: warm cache, missing
file — all three uploads fail with file-not-found and make no upload
call. -/
theorem claim4_missing_file_no_upload_call_spot :
    (upload_image "x.png" false false 5 [] [] ⟨some "A", some "B", recFile "tok" 10⟩).result =
        .error (.fileNotFoundError "图片不存在: x.png")
    ∧ (upload_image "x.png" false false 5 [] []
        ⟨some "A", some "B", recFile "tok" 10⟩).uploadCalls = 0
    ∧ (upload_thumb_image "x.png" false 5 [] []
        ⟨some "A", some "B", recFile "tok" 10⟩).result =
        .error (.fileNotFoundError "图片不存在: x.png")
    ∧ (upload_thumb_image "x.png" false 5 [] []
        ⟨some "A", some "B", recFile "tok" 10⟩).uploadCalls = 0
    ∧ (upload_content_image "x.png" false 5 [] []
        ⟨some "A", some "B", recFile "tok" 10⟩).result =
        .error (.fileNotFoundError "图片不存在: x.png")
    ∧ (upload_content_image "x.png" false 5 [] []
        ⟨some "A", some "B", recFile "tok" 10⟩).uploadCalls = 0 :=
  claim4_missing_file_no_upload_call "x.png" false 5 [] []
    ⟨some "A", some "B", recFile "tok" 10⟩ (.str "tok") rfl

/-- Claim C5: when the token endpoint replies
`{access_token: "tok1", expires_in: 7200}`, every path that reaches the
refresh (forced refresh over any cache state, cold start, or stale record)
persists a record with `expires_at = now + 7200 - 300` — 300 seconds
before the provider-side expiry — and returns exactly `"tok1"`. -/
theorem claim5_scenario_tok1 (appId appSecret : Option String)
    (hA : pyTruthy appId = true) (hS : pyTruthy appSecret = true) :
    (∀ (cf : FileState) (now : Int),
      get_access_token true now [("access_token", .str "tok1"), ("expires_in", .num 7200)]
        ⟨appId, appSecret, cf⟩ =
        ⟨.ok (.str "tok1"), recFile "tok1" (now + 7200 - 300), 1⟩)
    ∧ (∀ now : Int,
      get_access_token false now [("access_token", .str "tok1"), ("expires_in", .num 7200)]
        ⟨appId, appSecret, .absent⟩ =
        ⟨.ok (.str "tok1"), recFile "tok1" (now + 7200 - 300), 1⟩)
    ∧ (∀ (t : String) (e now : Int), e ≤ now →
      get_access_token false now [("access_token", .str "tok1"), ("expires_in", .num 7200)]
        ⟨appId, appSecret, recFile t e⟩ =
        ⟨.ok (.str "tok1"), recFile "tok1" (now + 7200 - 300), 1⟩)
    ∧ (∀ now : Int, now + 7200 - 300 + 300 ≤ now + 7200) :=
  ⟨fun cf now => get_access_token_force appId appSecret cf now 7200 "tok1" hA hS,
    fun now => get_access_token_absent appId appSecret now 7200 "tok1" hA hS,
    fun t e now h => get_access_token_stale appId appSecret t "tok1" e now 7200 hA hS h,
    fun now => by omega⟩

/-- Witness for C5 at a concrete input: forced refresh at time 1000 caches
`expires_at = 1000 + 7200 - 300` and returns `"tok1"`. -/
theorem claim5_scenario_tok1_spot :
    get_access_token true 1000 [("access_token", .str "tok1"), ("expires_in", .num 7200)]
      ⟨some "A", some "B", .absent⟩ =
      ⟨.ok (.str "tok1"), recFile "tok1" (1000 + 7200 - 300), 1⟩ :=
  (claim5_scenario_tok1 (some "A") (some "B") (by decide) (by decide)).1 .absent 1000

/-- Claim C6: if either identity value is unset (or empty),
`get_access_token` raises the configuration `ValueError` with no network
call and no cache change, and the error message names both required keys
`WECHAT_APP_ID` and `WECHAT_APP_SECRET`. -/
theorem claim6_missing_credentials (s : TokenState) (force : Bool) (now : Int)
    (tokenData : List (String × Json))
    (h : pyTruthy s.appId = false ∨ pyTruthy s.appSecret = false) :
    get_access_token force now tokenData s =
      ⟨.error (.valueError CRED_ERR_MSG), s.cacheFile, 0⟩
    ∧ "WECHAT_APP_ID".data <:+: CRED_ERR_MSG.data
    ∧ "WECHAT_APP_SECRET".data <:+: CRED_ERR_MSG.data := by
  refine ⟨?_, by decide, by decide⟩
  rcases h with h | h <;> simp [get_access_token, h]

/-- Witness for C6 at a concrete input: app id unset. -/
theorem claim6_missing_credentials_spot :
    get_access_token false 0 [] ⟨none, some "B", .absent⟩ =
      ⟨.error (.valueError CRED_ERR_MSG), .absent, 0⟩ :=
  (claim6_missing_credentials ⟨none, some "B", .absent⟩ false 0 [] (Or.inl rfl)).1

/-- Claim C7: provided the token acquisition succeeds, `publish` raises
the provider error if and only if the reply's `errcode` field is present
and non-zero, and the raised error carries the raw reply payload; in
particular an `errcode` of `40001` makes it raise the error carrying that
payload. -/
theorem claim7_publish_errcode (media_id : String) (now : Int)
    (tokenData publishData : List (String × Json)) (s : TokenState) (j : Json)
    (htok : (get_access_token false now tokenData s).result = .ok j) :
    ((publish media_id now tokenData publishData s).result =
        .error (.runtimeError "发布失败" (.obj publishData))
      ↔ ∃ v, Json.lookup publishData "errcode" = some v ∧ v.pyEqInt 0 = false)
    ∧ (Json.lookup publishData "errcode" = some (.num 40001) →
        (publish media_id now tokenData publishData s).result =
          .error (.runtimeError "发布失败" (.obj publishData))) := by
  have hiff : (publish media_id now tokenData publishData s).result =
      .error (.runtimeError "发布失败" (.obj publishData))
      ↔ ∃ v, Json.lookup publishData "errcode" = some v ∧ v.pyEqInt 0 = false := by
    simp only [publish]
    rw [htok]
    rcases hc : Json.lookup publishData "errcode" with _ | v
    · simp [hc, Json.pyEqInt]
    · by_cases hz : v.pyEqInt 0 = true
      · simp [hc, hz]
      · simp [hc, hz]
  exact ⟨hiff, fun h40 => hiff.2 ⟨.num 40001, h40, by decide⟩⟩

/-- Witness for C7 at a concrete input: the scenario reply
`{errcode: 40001, errmsg: "invalid credential"}` makes `publish` raise
the provider error carrying that payload (whose `errcode` is `40001`). -/
theorem claim7_publish_errcode_spot :
    (publish "m" 5 [] [("errcode", .num 40001), ("errmsg", .str "invalid credential")]
        ⟨some "A", some "B", recFile "tok" 10⟩).result =
      .error (.runtimeError "发布失败"
        (.obj [("errcode", .num 40001), ("errmsg", .str "invalid credential")])) :=
  (claim7_publish_errcode "m" 5 []
      [("errcode", .num 40001), ("errmsg", .str "invalid credential")]
      ⟨some "A", some "B", recFile "tok" 10⟩ (.str "tok") rfl).2 rfl

/-- Claim C8: round-trip — the record written on refresh, read back by the
cache-hit path, yields the identical `access_token` and `expires_at`: the
field extraction inverts the dump, and a subsequent unexpired call returns
exactly the stored token and leaves the record intact. -/
theorem claim8_cache_roundtrip (ct : CachedToken) :
    loadCachedToken (dumpCachedToken ct) = some ct
    ∧ ∀ (appId appSecret : Option String) (now : Int) (tokenData : List (String × Json)),
        pyTruthy appId = true → pyTruthy appSecret = true → now < ct.expires_at →
        get_access_token false now tokenData ⟨appId, appSecret, .json (dumpCachedToken ct)⟩ =
          ⟨.ok (.str ct.access_token), .json (dumpCachedToken ct), 0⟩ := by
  obtain ⟨t, e⟩ := ct
  exact ⟨by simp [loadCachedToken, dumpCachedToken, Json.lookup],
    fun appId appSecret now tokenData hA hS h =>
      get_access_token_hit appId appSecret t e now tokenData hA hS h⟩

/-- Witness for C8 at a concrete input. -/
theorem claim8_cache_roundtrip_spot :
    loadCachedToken (dumpCachedToken ⟨"tok", 42⟩) = some ⟨"tok", 42⟩
    ∧ get_access_token false 7 [] ⟨some "A", some "B", .json (dumpCachedToken ⟨"tok", 42⟩)⟩ =
        ⟨.ok (.str "tok"), .json (dumpCachedToken ⟨"tok", 42⟩), 0⟩ :=
  ⟨(claim8_cache_roundtrip ⟨"tok", 42⟩).1,
    (claim8_cache_roundtrip ⟨"tok", 42⟩).2 (some "A") (some "B") 7 []
      (by decide) (by decide) (by decide)⟩

/-- Claim C9: if the token endpoint's reply lacks `access_token`, the
cache file is left exactly as it was (the error is raised before the
write), and on every path that consults the endpoint — forced refresh
over any cache state, a cold start with no cache file, or a stale
record — the call raises the runtime error carrying the raw reply. -/
theorem claim9_no_token_preserves_cache (force : Bool) (now : Int)
    (tokenData : List (String × Json)) (s : TokenState)
    (hA : pyTruthy s.appId = true) (hS : pyTruthy s.appSecret = true)
    (hmiss : Json.lookup tokenData "access_token" = none) :
    (get_access_token force now tokenData s).cacheFile = s.cacheFile
    ∧ (force = true ∨ s.cacheFile = .absent
        ∨ (∃ t e, s.cacheFile = recFile t e ∧ e ≤ now) →
        (get_access_token force now tokenData s).result =
          .error (.runtimeError "获取 access_token 失败" (.obj tokenData))) := by
  have hfetch : fetchAndCache now tokenData s =
      ⟨.error (.runtimeError "获取 access_token 失败" (.obj tokenData)), s.cacheFile, 1⟩ := by
    simp [fetchAndCache, hmiss]
  constructor
  · rw [get_access_token]
    split
    · rfl
    · split
      · rw [hfetch]
      · split <;> try rw [hfetch]
        · next heq => rw [heq]
        · next j heq =>
          split <;> simp [heq, hfetch]
  · rintro (hf | hc | ⟨t, e, hc, hle⟩)
    · subst hf
      simp [get_access_token, hA, hS, hfetch]
    · cases force <;>
        simp [get_access_token, hA, hS, hc, hfetch]
    · cases force <;>
        simp [get_access_token, hA, hS, hc, hfetch, recFile, dumpCachedToken, readCacheHit,
          Json.lookup, Json.asNum, show ¬ now < e from not_lt.2 hle]

/-- Witness for C9 at a concrete input: a non-forced refresh over a stale
record (expired at 3, now 10) with a reply lacking `access_token` leaves
the stale record in place and raises the error carrying the reply. -/
theorem claim9_no_token_preserves_cache_spot :
    (get_access_token false 10 [("expires_in", .num 7200)]
        ⟨some "A", some "B", recFile "old" 3⟩).cacheFile = recFile "old" 3
    ∧ (get_access_token false 10 [("expires_in", .num 7200)]
        ⟨some "A", some "B", recFile "old" 3⟩).result =
        .error (.runtimeError "获取 access_token 失败" (.obj [("expires_in", .num 7200)])) :=
  ⟨(claim9_no_token_preserves_cache false 10 [("expires_in", .num 7200)]
      ⟨some "A", some "B", recFile "old" 3⟩ (by decide) (by decide) rfl).1,
    (claim9_no_token_preserves_cache false 10 [("expires_in", .num 7200)]
      ⟨some "A", some "B", recFile "old" 3⟩ (by decide) (by decide) rfl).2
      (Or.inr (Or.inr ⟨"old", 3, rfl, by decide⟩))⟩

/-- Claim C10: provided the token acquisition succeeds, a publish reply
with no `errcode` field (or `errcode` equal to `0`) and no `publish_id`
field does not raise — `publish` returns the literal string `"unknown"`. -/
theorem claim10_publish_id_unknown (media_id : String) (now : Int)
    (tokenData publishData : List (String × Json)) (s : TokenState) (j : Json)
    (htok : (get_access_token false now tokenData s).result = .ok j)
    (herr : Json.lookup publishData "errcode" = none
      ∨ Json.lookup publishData "errcode" = some (.num 0))
    (hpid : Json.lookup publishData "publish_id" = none) :
    (publish media_id now tokenData publishData s).result = .ok "unknown" := by
  simp only [publish]
  rw [htok]
  rcases herr with h | h <;> simp [h, hpid, Json.pyEqInt, pyStr]

/-- Witness for C10 at a concrete input: a reply carrying only an
`errmsg` makes `publish` return `"unknown"`. -/
theorem claim10_publish_id_unknown_spot :
    (publish "m" 5 [] [("errmsg", .str "x")]
        ⟨some "A", some "B", recFile "tok" 10⟩).result = .ok "unknown" :=
  claim10_publish_id_unknown "m" 5 [] [("errmsg", .str "x")]
    ⟨some "A", some "B", recFile "tok" 10⟩ (.str "tok") rfl (Or.inl rfl) rfl

end Wx
